import Mathlib

/-!
Verification development for the gs_bridge daemon (gs_bridge.c): a bridge
between a Unix-domain-socket JSON control channel and a UART serial link
carrying 64-bit instruction words.  Machine integers are embedded as `Nat`
with explicit masking; fallible C functions returning `-1`/`0` are embedded
as `Option`.
-/

namespace GSBridge

/-! ## Message type discriminants (enum MsgType5) -/

def TYPE_C   : Nat := 0x01
def TYPE_P   : Nat := 0x02
def TYPE_S   : Nat := 0x03
def TYPE_Q   : Nat := 0x04
def TYPE_SR  : Nat := 0x05
def TYPE_HR  : Nat := 0x06
def TYPE_A   : Nat := 0x07
def TYPE_HPR : Nat := 0x08

def UART_PREAMBLE_0 : Nat := 0xAA
def UART_PREAMBLE_1 : Nat := 0x55
def UART_PAYLOAD_LEN : Nat := 8

/-! ## Bit helpers -/

/-- C source `get_bits_u32`: extract `nbits` starting at bit `lo` from a 64-bit word
(`(w >> lo) & ((1ULL << nbits) - 1ULL)`). -/
def get_bits_u32 (w : Nat) (lo nbits : Nat) : Nat :=
  (w >>> lo) &&& ((1 <<< nbits) - 1)

/-- C source `be_to_u64`: fold 8 big-endian bytes into a 64-bit word
(`w = (w << 8) | in[i]` over the bytes). -/
def be_to_u64 (bytes : List Nat) : Nat :=
  bytes.foldl (fun w b => (w <<< 8) ||| b) 0

/-- C source `u64_to_be`: the 8 big-endian bytes of a 64-bit word
(`out[i] = (uint8_t)(w >> (56 - 8*i))`). -/
def u64_to_be (w : Nat) : List Nat :=
  (List.range 8).map (fun i => (w >>> (56 - 8 * i)) % 256)

/-- C source `xor8`: XOR checksum over a byte list. -/
def xor8 (bytes : List Nat) : Nat :=
  bytes.foldl (fun x b => x ^^^ b) 0

/-! ## Packers (Node -> Robot), verbatim shift/mask/or structure -/

/-- C source `pack_C`: Control word.  Parameter names follow the C source:
`w` into bit 5, `a` into bit 6, `s` into bit 7, `d` into bit 8,
`speed` into bits 9..15, `pl` into bits 16..17. -/
def pack_C (w a s d speed_0_100 pl_0_3 : Nat) : Nat :=
  let word : Nat := 0
  let word := word ||| ((TYPE_C &&& 0x1F) <<< 0)
  let word := word ||| ((w &&& 1) <<< 5)
  let word := word ||| ((a &&& 1) <<< 6)
  let word := word ||| ((s &&& 1) <<< 7)
  let word := word ||| ((d &&& 1) <<< 8)
  let word := word ||| ((speed_0_100 &&& 0x7F) <<< 9)
  let word := word ||| ((pl_0_3 &&& 0x03) <<< 16)
  word

/-- C source `pack_P`: Pose word: type, instruction (bits 5..8), priority (9..10),
id (11..22). -/
def pack_P (instr_0_15 pl_0_3 id_0_2047 : Nat) : Nat :=
  let w : Nat := 0
  let w := w ||| ((TYPE_P &&& 0x1F) <<< 0)
  let w := w ||| ((instr_0_15 &&& 0x0F) <<< 5)
  let w := w ||| ((pl_0_3 &&& 0x03) <<< 9)
  let w := w ||| ((id_0_2047 &&& 0x0FFF) <<< 11)
  w

/-- C source `pack_S`: System word: type, instruction (5..8), AC (9..18),
priority (19..20), id (21..31), instruction_specific (32..63).
`instr_spec` is a `uint32_t` in C, so callers guarantee it is below `2^32`. -/
def pack_S (instr_0_15 ac_0_1023 pl_0_3 id_0_2047 instr_spec : Nat) : Nat :=
  let w : Nat := 0
  let w := w ||| ((TYPE_S &&& 0x1F) <<< 0)
  let w := w ||| ((instr_0_15 &&& 0x0F) <<< 5)
  let w := w ||| ((ac_0_1023 &&& 0x03FF) <<< 9)
  let w := w ||| ((pl_0_3 &&& 0x03) <<< 19)
  let w := w ||| ((id_0_2047 &&& 0x07FF) <<< 21)
  let w := w ||| (instr_spec <<< 32)
  w

/-- C source `pack_Q`: Query word: type, instruction (5..8), priority (9..10),
id (11..22), report_on (bit 23). -/
def pack_Q (instr_0_15 pl_0_3 id_0_2047 report_on : Nat) : Nat :=
  let w : Nat := 0
  let w := w ||| ((TYPE_Q &&& 0x1F) <<< 0)
  let w := w ||| ((instr_0_15 &&& 0x0F) <<< 5)
  let w := w ||| ((pl_0_3 &&& 0x03) <<< 9)
  let w := w ||| ((id_0_2047 &&& 0x0FFF) <<< 11)
  let w := w ||| ((report_on &&& 1) <<< 23)
  w

/-! ## Unpackers (Robot -> Node) -/

/-- The C `StatusSR` struct. -/
structure StatusSR where
  speed : Nat
  state : Nat
  motor : Nat
  robot_id : Nat
  curr_pos : Nat
  deriving Repr, DecidableEq

/-- C source `unpack_SR`: decode a Status Report word; `-1` (type mismatch) is
embedded as `none`. -/
def unpack_SR (w : Nat) : Option StatusSR :=
  let type := get_bits_u32 w 0 5
  if type ≠ TYPE_SR then none
  else some {
    speed := get_bits_u32 w 5 7
    state := get_bits_u32 w 12 1
    motor := get_bits_u32 w 13 1
    robot_id := get_bits_u32 w 14 2
    curr_pos := (w >>> 16) &&& ((1 <<< 31) - 1) }

/-- The C `HealthHR` struct. -/
structure HealthHR where
  battery : Nat
  signal : Nat
  security : Nat
  name_id : Nat
  deriving Repr, DecidableEq

/-- C source `unpack_HR`: decode a Health Report word; `-1` (type mismatch) is
embedded as `none`. -/
def unpack_HR (w : Nat) : Option HealthHR :=
  let type := get_bits_u32 w 0 5
  if type ≠ TYPE_HR then none
  else some {
    battery := get_bits_u32 w 5 7
    signal := get_bits_u32 w 12 6
    security := get_bits_u32 w 18 2
    name_id := get_bits_u32 w 20 12 }

/-! ## Spec-modelled codec halves

The repository only implements one direction per message type (packers for
C/P/S/Q, unpackers for SR/HR).  The opposite halves below are modelled from
the spec's field-layout table so the round-trip law can be stated. -/

structure ControlFields where
  forward : Nat
  backward : Nat
  left : Nat
  right : Nat
  speed : Nat
  priority : Nat
  deriving Repr, DecidableEq

/-- Modelled from the spec: the repository has no `unpack_C`; this decoder
follows the spec table row `Control: forward(5,1) backward(6,1) left(7,1)
right(8,1) speed(9,7) priority(16,2)` with low-5-bit discriminant 1. -/
def spec_unpack_C (w : Nat) : Option ControlFields :=
  if get_bits_u32 w 0 5 ≠ TYPE_C then none
  else some {
    forward := get_bits_u32 w 5 1
    backward := get_bits_u32 w 6 1
    left := get_bits_u32 w 7 1
    right := get_bits_u32 w 8 1
    speed := get_bits_u32 w 9 7
    priority := get_bits_u32 w 16 2 }

structure PoseFields where
  instruction : Nat
  priority : Nat
  id : Nat
  deriving Repr, DecidableEq

/-- Modelled from the spec: the repository has no `unpack_P`; this decoder
follows the spec table row `Pose: instruction(5,4) priority(9,2) id(11,12)`
with discriminant 2. -/
def spec_unpack_P (w : Nat) : Option PoseFields :=
  if get_bits_u32 w 0 5 ≠ TYPE_P then none
  else some {
    instruction := get_bits_u32 w 5 4
    priority := get_bits_u32 w 9 2
    id := get_bits_u32 w 11 12 }

structure SystemFields where
  instruction : Nat
  auth_code : Nat
  priority : Nat
  id : Nat
  instruction_specific : Nat
  deriving Repr, DecidableEq

/-- Modelled from the spec: the repository has no `unpack_S`; this decoder
follows the spec table row `System: instruction(5,4) auth_code(9,10)
priority(19,2) id(21,11) instruction_specific(32,32)` with discriminant 3. -/
def spec_unpack_S (w : Nat) : Option SystemFields :=
  if get_bits_u32 w 0 5 ≠ TYPE_S then none
  else some {
    instruction := get_bits_u32 w 5 4
    auth_code := get_bits_u32 w 9 10
    priority := get_bits_u32 w 19 2
    id := get_bits_u32 w 21 11
    instruction_specific := (w >>> 32) &&& ((1 <<< 32) - 1) }

structure QueryFields where
  instruction : Nat
  priority : Nat
  id : Nat
  report_on : Nat
  deriving Repr, DecidableEq

/-- Modelled from the spec: the repository has no `unpack_Q`; this decoder
follows the spec table row `Query: instruction(5,4) priority(9,2) id(11,12)
report_on(23,1)` with discriminant 4. -/
def spec_unpack_Q (w : Nat) : Option QueryFields :=
  if get_bits_u32 w 0 5 ≠ TYPE_Q then none
  else some {
    instruction := get_bits_u32 w 5 4
    priority := get_bits_u32 w 9 2
    id := get_bits_u32 w 11 12
    report_on := get_bits_u32 w 23 1 }

/-- Modelled from the spec: the repository has no `pack_SR`; this packer
follows the spec table row `StatusReport: speed(5,7) state(12,1) motor(13,1)
robot_id(14,2) curr_pos(16,31)` with discriminant 5, built with the same
shift/mask/or scheme as the repository's packers. -/
def spec_pack_SR (speed state motor robot_id curr_pos : Nat) : Nat :=
  let w : Nat := 0
  let w := w ||| ((TYPE_SR &&& 0x1F) <<< 0)
  let w := w ||| ((speed &&& 0x7F) <<< 5)
  let w := w ||| ((state &&& 1) <<< 12)
  let w := w ||| ((motor &&& 1) <<< 13)
  let w := w ||| ((robot_id &&& 0x03) <<< 14)
  let w := w ||| ((curr_pos &&& ((1 <<< 31) - 1)) <<< 16)
  w

/-- Modelled from the spec: the repository has no `pack_HR`; this packer
follows the spec table row `HealthReport: battery(5,7) signal(12,6)
security(18,2) name_id(20,12)` with discriminant 6. -/
def spec_pack_HR (battery signal security name_id : Nat) : Nat :=
  let w : Nat := 0
  let w := w ||| ((TYPE_HR &&& 0x1F) <<< 0)
  let w := w ||| ((battery &&& 0x7F) <<< 5)
  let w := w ||| ((signal &&& 0x3F) <<< 12)
  let w := w ||| ((security &&& 0x03) <<< 18)
  let w := w ||| ((name_id &&& 0x0FFF) <<< 20)
  w

/-! ## UART frame parser (inbound state machine) -/

inductive UartParseState where
  | ST_SYNC0
  | ST_SYNC1
  | ST_LEN
  | ST_PAYLOAD
  | ST_XOR
  deriving Repr, DecidableEq

open UartParseState

/-- The C `UartParser` struct.  The C payload array of 8 bytes written at indices
`0..idx-1` is embedded as the list of bytes stored so far (cleared when a
new length byte is accepted, which is observationally identical because all
8 slots are overwritten before `ST_XOR` reads them). -/
structure UartParser where
  st : UartParseState
  len : Nat
  payload : List Nat
  idx : Nat
  deriving Repr, DecidableEq

/-- C source `uart_parser_init`: memset to zero, state `ST_SYNC0`. -/
def uart_parser_init : UartParser :=
  { st := ST_SYNC0, len := 0, payload := [], idx := 0 }

/-- C source `uart_parser_feed`: consume one byte; return the updated parser and
`some word` when a complete valid frame just finished (C returns 1 and
writes `*out_word`). -/
def uart_parser_feed (p : UartParser) (byte : Nat) : UartParser × Option Nat :=
  match p.st with
  | ST_SYNC0 =>
    (if byte = UART_PREAMBLE_0 then { p with st := ST_SYNC1 } else p, none)
  | ST_SYNC1 =>
    (if byte = UART_PREAMBLE_1 then { p with st := ST_LEN }
     else { p with st := ST_SYNC0 }, none)
  | ST_LEN =>
    if byte ≠ 8 then ({ p with len := byte, st := ST_SYNC0 }, none)
    else ({ p with len := byte, idx := 0, payload := [], st := ST_PAYLOAD }, none)
  | ST_PAYLOAD =>
    let q := { p with payload := p.payload ++ [byte], idx := p.idx + 1 }
    if q.idx ≥ 8 then ({ q with st := ST_XOR }, none) else (q, none)
  | ST_XOR =>
    let want := xor8 p.payload
    let q := { p with st := ST_SYNC0 }
    if byte ≠ want then (q, none) else (q, some (be_to_u64 p.payload))

/-- Feed a byte list into the parser, collecting every emitted word in
order (the `main` loop feeds each received byte and forwards each word). -/
def uart_feed_list (p : UartParser) (bytes : List Nat) : UartParser × List Nat :=
  match bytes with
  | [] => (p, [])
  | b :: rest =>
    let r := uart_parser_feed p b
    let rr := uart_feed_list r.1 rest
    (rr.1, r.2.toList ++ rr.2)

/-! ## Outbound serialization (`uart_send_word`) -/

/-- C source `uart_send_word`: the 65 bytes written to the UART for one word: 64
ASCII bits, MSB first (`bit_string[i] = (instruction & (1ULL << (63 - i)))
? '1' : '0'`), then the protocol terminator `'\r'` (the trailing NUL is not
sent). -/
def uart_send_word_bytes (instruction : Nat) : List Char :=
  (List.range 64).map
    (fun i => if instruction &&& (1 <<< (63 - i)) ≠ 0 then '1' else '0')
    ++ ['\r']

/-! ## RN-42 command sequencer -/

/-- C source `rn42_enter_cmd`: writes `$$$` with no CR/LF (plus a settle delay). -/
def rn42_enter_cmd_bytes : List Char := "$$$".data

/-- C source `rn42_exit_cmd`: writes `---\r` (plus a settle delay). -/
def rn42_exit_cmd_bytes : List Char := "---\r".data

/-- C source `rn42_connect_mac`: enter command mode, `snprintf(cmd, sizeof cmd,
"C\r")` — the format string references no argument, so the `mac` parameter
never reaches the wire — write `cmd`, wait, exit command mode.  This is the
byte trace written to the UART. -/
def rn42_connect_mac_bytes (mac : String) : List Char :=
  rn42_enter_cmd_bytes ++ "C\r".data ++ rn42_exit_cmd_bytes

/-- C source `rn42_disconnect`: enter command mode, write `K,\r`, wait, exit. -/
def rn42_disconnect_bytes : List Char :=
  rn42_enter_cmd_bytes ++ "K,\r".data ++ rn42_exit_cmd_bytes

/-! ## JSON values (cJSON) and the control-channel handler -/

/-- Parsed JSON values as handled through the vendored cJSON API. -/
inductive Json where
  | null
  | bool (b : Bool)
  | num (v : Int)
  | str (s : String)
  | arr (items : List Json)
  | obj (fields : List (String × Json))

/-- C source `cJSON_GetObjectItemCaseSensitive`: the first member whose name matches
exactly, or NULL (`none`). -/
def cJSON_GetObjectItemCaseSensitive (obj : Json) (key : String) : Option Json :=
  match obj with
  | .obj fields => (fields.find? (fun kv => kv.1 == key)).map (fun kv => kv.2)
  | _ => none

/-- C source `json_get_u8`: the key must exist, be a number, and lie in
`[minv, maxv]`; C returns `-1`/`-2` on failure (callers only test nonzero,
so both collapse to `none`) and stores `(uint8_t)v` on success. -/
def json_get_u8 (obj : Json) (key : String) (minv maxv : Int) : Option Nat :=
  match cJSON_GetObjectItemCaseSensitive obj key with
  | some (.num v) => if v < minv ∨ v > maxv then none else some v.toNat
  | _ => none

/-- C source `json_get_u16`: same validation as `json_get_u8`, wider store. -/
def json_get_u16 (obj : Json) (key : String) (minv maxv : Int) : Option Nat :=
  match cJSON_GetObjectItemCaseSensitive obj key with
  | some (.num v) => if v < minv ∨ v > maxv then none else some v.toNat
  | _ => none

/-- C source `json_get_u32`: the key must exist, be a number, and lie in
`[0, 4294967295]`. -/
def json_get_u32 (obj : Json) (key : String) : Option Nat :=
  match cJSON_GetObjectItemCaseSensitive obj key with
  | some (.num v) => if v < 0 ∨ v > 4294967295 then none else some v.toNat
  | _ => none

/-- One observable output of `handle_node_json`: a JSON reply sent through
`uds_send_json`, or a 64-bit instruction word handed to `uart_send_word`. -/
inductive Event where
  | uds (json : String)
  | uart (word : Nat)
  deriving Repr, DecidableEq

def ERR_BAD_JSON : String := "\x7b\"type\":\"ERR\",\"msg\":\"bad json\"\x7d"
def ERR_MISSING_TYPE : String := "\x7b\"type\":\"ERR\",\"msg\":\"missing type\"\x7d"
def ERR_BAD_C : String := "\x7b\"type\":\"ERR\",\"msg\":\"bad C fields\"\x7d"
def ERR_BAD_P : String := "\x7b\"type\":\"ERR\",\"msg\":\"bad P fields\"\x7d"
def ERR_P_RANGE : String :=
  "\x7b\"type\":\"ERR\",\"msg\":\"P instruction out of range\"\x7d"
def ERR_P_REQUIRES : String :=
  "\x7b\"type\":\"ERR\",\"msg\":\"P requires instruction or actions[]\"\x7d"
def ERR_BAD_S : String := "\x7b\"type\":\"ERR\",\"msg\":\"bad S fields\"\x7d"
def ERR_BAD_Q : String := "\x7b\"type\":\"ERR\",\"msg\":\"bad Q fields\"\x7d"
def ERR_UNKNOWN_TYPE : String := "\x7b\"type\":\"ERR\",\"msg\":\"unknown type\"\x7d"

/-- C source `handle_node_json`: the ordered observable outputs (UDS replies, UART
transmissions) of handling one control-channel message.  `none` models
`cJSON_Parse` returning NULL.  Note the Control branch transmits
`pack_C(f, l, b, r, speed, pl)`: the source passes `l` (left) as the second
argument and `b` (backward) as the third. -/
def handle_node_json (root? : Option Json) : List Event :=
  match root? with
  | none => [.uds ERR_BAD_JSON]
  | some root =>
    match cJSON_GetObjectItemCaseSensitive root "type" with
    | some (.str t) =>
      if t = "C" then
        match json_get_u8 root "forward" 0 1, json_get_u8 root "backward" 0 1,
            json_get_u8 root "left" 0 1, json_get_u8 root "right" 0 1,
            json_get_u8 root "speed" 0 100,
            json_get_u8 root "priority_level" 0 3 with
        | some f, some b, some l, some r, some speed, some pl =>
          [.uart (pack_C f l b r speed pl)]
        | _, _, _, _, _, _ => [.uds ERR_BAD_C]
      else if t = "P" then
        match json_get_u8 root "priority_level" 0 3,
            json_get_u16 root "id" 0 2047 with
        | some pl, some id =>
          match cJSON_GetObjectItemCaseSensitive root "instruction",
              cJSON_GetObjectItemCaseSensitive root "actions" with
          | some (.num op), _ =>
            if op < 0 ∨ op > 15 then [.uds ERR_P_RANGE]
            else [.uart (pack_P op.toNat pl id)]
          | _, some (.arr items) =>
            items.filterMap (fun ai =>
              match ai with
              | .num op =>
                if op < 0 ∨ op > 15 then none
                else some (Event.uart (pack_P op.toNat pl id))
              | _ => none)
          | _, _ => [.uds ERR_P_REQUIRES]
        | _, _ => [.uds ERR_BAD_P]
      else if t = "S" then
        match json_get_u8 root "instruction" 0 15, json_get_u16 root "ac" 0 1023,
            json_get_u8 root "priority_level" 0 3, json_get_u16 root "id" 0 2047,
            json_get_u32 root "instruction_specific" with
        | some instr, some ac, some pl, some id, some spec =>
          [.uart (pack_S instr ac pl id spec)]
        | _, _, _, _, _ => [.uds ERR_BAD_S]
      else if t = "Q" then
        match json_get_u8 root "instruction" 0 15, json_get_u8 root "report" 0 1,
            json_get_u8 root "priority_level" 0 3,
            json_get_u16 root "id" 0 2047 with
        | some instr, some report, some pl, some id =>
          [.uart (pack_Q instr pl id report)]
        | _, _, _, _ => [.uds ERR_BAD_Q]
      else [.uds ERR_UNKNOWN_TYPE]
    | _ => [.uds ERR_MISSING_TYPE]

/-! ## Event-loop model (`main`) -/

/-- The externally visible events one iteration of `main`'s `while (1)`
loop can react to. -/
inductive LoopEvent where
  | accept
  | clientClose
  | jsonMsg
  | serialBytes
  deriving Repr, DecidableEq

/-- The loop state relevant to the modem-connect-once behaviour:
`uds_client` (is a client fd held), the `bt_connect_attempted` flag, and a
ghost counter of how many times `rn42_connect_mac` has executed. -/
structure BridgeState where
  uds_client : Bool
  bt_connect_attempted : Bool
  rn42_connect_runs : Nat
  deriving Repr, DecidableEq

/-- One loop iteration of `main`: `accept` only happens while no client is
held; immediately after a successful accept, `rn42_connect_mac` runs iff
`bt_connect_attempted` is still 0, which is set to 1 first.  Closing the
client only resets `uds_client`; JSON and serial traffic touch neither the
flag nor the counter. -/
def bridge_step (s : BridgeState) (e : LoopEvent) : BridgeState :=
  match e with
  | .accept =>
    if s.uds_client then s
    else if ¬ s.bt_connect_attempted then
      { uds_client := true, bt_connect_attempted := true,
        rn42_connect_runs := s.rn42_connect_runs + 1 }
    else { s with uds_client := true }
  | .clientClose => { s with uds_client := false }
  | .jsonMsg => s
  | .serialBytes => s

/-- Startup state: no client, `bt_connect_attempted = 0`. -/
def bridge_init : BridgeState :=
  { uds_client := false, bt_connect_attempted := false, rn42_connect_runs := 0 }

/-- The loop state after any sequence of events from startup. -/
def bridge_run (events : List LoopEvent) : BridgeState :=
  events.foldl bridge_step bridge_init

/-- The Control message the C1 analysis evaluates the handler on:
`backward = 1`, every other field 0. -/
def ctrl_backward_json : Json :=
  Json.obj [("type", .str "C"), ("forward", .num 0), ("backward", .num 1),
    ("left", .num 0), ("right", .num 0), ("speed", .num 0),
    ("priority_level", .num 0)]

/-! ## Arithmetic views of the bitwise operations -/

/-- Disjoint OR is addition: when `a` fits below bit `k`,
`a ||| (b <<< k) = b <<< k + a`. -/
theorem lor_shiftLeft_eq_add (a b k : Nat) (h : a < 2 ^ k) :
    a ||| (b <<< k) = b <<< k + a := by
  apply Nat.eq_of_testBit_eq
  intro j
  rw [Nat.testBit_lor, Nat.testBit_shiftLeft, Nat.shiftLeft_eq,
    Nat.mul_comm b (2 ^ k), Nat.testBit_mul_pow_two_add b h j]
  by_cases hj : j < k
  · simp [hj, Nat.not_le.mpr hj]
  · have hk : k ≤ j := Nat.le_of_not_lt hj
    have ha : a < 2 ^ j := Nat.lt_of_lt_of_le h (Nat.pow_le_pow_right (by norm_num) hk)
    simp [hj, hk, Nat.testBit_lt_two_pow ha]

theorem and_mask_eq_mod (x n : Nat) : x &&& ((1 <<< n) - 1) = x % 2 ^ n := by
  rw [Nat.shiftLeft_eq, Nat.one_mul]
  exact Nat.and_pow_two_sub_one_eq_mod x n

theorem get_bits_u32_eq (w lo nbits : Nat) :
    get_bits_u32 w lo nbits = (w / 2 ^ lo) % 2 ^ nbits := by
  rw [get_bits_u32, and_mask_eq_mod, Nat.shiftRight_eq_div_pow]

theorem and_mask1 (x : Nat) : x &&& 1 = x % 2 ^ 1 := and_mask_eq_mod x 1
theorem and_mask3 (x : Nat) : x &&& 3 = x % 2 ^ 2 := and_mask_eq_mod x 2
theorem and_mask15 (x : Nat) : x &&& 15 = x % 2 ^ 4 := and_mask_eq_mod x 4
theorem and_mask31 (x : Nat) : x &&& 31 = x % 2 ^ 5 := and_mask_eq_mod x 5
theorem and_mask63 (x : Nat) : x &&& 63 = x % 2 ^ 6 := and_mask_eq_mod x 6
theorem and_mask127 (x : Nat) : x &&& 127 = x % 2 ^ 7 := and_mask_eq_mod x 7
theorem and_mask1023 (x : Nat) : x &&& 1023 = x % 2 ^ 10 := and_mask_eq_mod x 10
theorem and_mask2047 (x : Nat) : x &&& 2047 = x % 2 ^ 11 := and_mask_eq_mod x 11
theorem and_mask4095 (x : Nat) : x &&& 4095 = x % 2 ^ 12 := and_mask_eq_mod x 12

/-- Arithmetic form of `pack_C`. -/
theorem pack_C_eq (w a s d speed pl : Nat) :
    pack_C w a s d speed pl =
      1 + (w % 2) * 2 ^ 5 + (a % 2) * 2 ^ 6 + (s % 2) * 2 ^ 7 + (d % 2) * 2 ^ 8
        + (speed % 2 ^ 7) * 2 ^ 9 + (pl % 2 ^ 2) * 2 ^ 16 := by
  show (((((((0 ||| ((TYPE_C &&& 0x1F) <<< 0)) ||| ((w &&& 1) <<< 5))
      ||| ((a &&& 1) <<< 6)) ||| ((s &&& 1) <<< 7)) ||| ((d &&& 1) <<< 8))
      ||| ((speed &&& 0x7F) <<< 9)) ||| ((pl &&& 0x03) <<< 16)) = _
  simp only [and_mask1, and_mask3, and_mask31, and_mask127]
  rw [lor_shiftLeft_eq_add _ _ 5
    (by simp only [Nat.zero_or, Nat.shiftLeft_eq, TYPE_C]; omega)]
  rw [lor_shiftLeft_eq_add _ _ 6
    (by simp only [Nat.zero_or, Nat.shiftLeft_eq, TYPE_C]; omega)]
  rw [lor_shiftLeft_eq_add _ _ 7
    (by simp only [Nat.zero_or, Nat.shiftLeft_eq, TYPE_C]; omega)]
  rw [lor_shiftLeft_eq_add _ _ 8
    (by simp only [Nat.zero_or, Nat.shiftLeft_eq, TYPE_C]; omega)]
  rw [lor_shiftLeft_eq_add _ _ 9
    (by simp only [Nat.zero_or, Nat.shiftLeft_eq, TYPE_C]; omega)]
  rw [lor_shiftLeft_eq_add _ _ 16
    (by simp only [Nat.zero_or, Nat.shiftLeft_eq, TYPE_C]; omega)]
  simp only [Nat.zero_or, Nat.shiftLeft_eq, TYPE_C]
  omega

/-- Arithmetic form of `pack_P`. -/
theorem pack_P_eq (instr pl id : Nat) :
    pack_P instr pl id =
      2 + (instr % 2 ^ 4) * 2 ^ 5 + (pl % 2 ^ 2) * 2 ^ 9 + (id % 2 ^ 12) * 2 ^ 11 := by
  show ((((0 ||| ((TYPE_P &&& 0x1F) <<< 0)) ||| ((instr &&& 0x0F) <<< 5))
      ||| ((pl &&& 0x03) <<< 9)) ||| ((id &&& 0x0FFF) <<< 11)) = _
  simp only [and_mask3, and_mask15, and_mask31, and_mask4095]
  rw [lor_shiftLeft_eq_add _ _ 5
    (by simp only [Nat.zero_or, Nat.shiftLeft_eq, TYPE_P]; omega)]
  rw [lor_shiftLeft_eq_add _ _ 9
    (by simp only [Nat.zero_or, Nat.shiftLeft_eq, TYPE_P]; omega)]
  rw [lor_shiftLeft_eq_add _ _ 11
    (by simp only [Nat.zero_or, Nat.shiftLeft_eq, TYPE_P]; omega)]
  simp only [Nat.zero_or, Nat.shiftLeft_eq, TYPE_P]
  omega

/-- Arithmetic form of `pack_S`. -/
theorem pack_S_eq (instr ac pl id instr_spec : Nat) :
    pack_S instr ac pl id instr_spec =
      3 + (instr % 2 ^ 4) * 2 ^ 5 + (ac % 2 ^ 10) * 2 ^ 9 + (pl % 2 ^ 2) * 2 ^ 19
        + (id % 2 ^ 11) * 2 ^ 21 + instr_spec * 2 ^ 32 := by
  show ((((((0 ||| ((TYPE_S &&& 0x1F) <<< 0)) ||| ((instr &&& 0x0F) <<< 5))
      ||| ((ac &&& 0x03FF) <<< 9)) ||| ((pl &&& 0x03) <<< 19))
      ||| ((id &&& 0x07FF) <<< 21)) ||| (instr_spec <<< 32)) = _
  simp only [and_mask3, and_mask15, and_mask31, and_mask1023, and_mask2047]
  rw [lor_shiftLeft_eq_add _ _ 5
    (by simp only [Nat.zero_or, Nat.shiftLeft_eq, TYPE_S]; omega)]
  rw [lor_shiftLeft_eq_add _ _ 9
    (by simp only [Nat.zero_or, Nat.shiftLeft_eq, TYPE_S]; omega)]
  rw [lor_shiftLeft_eq_add _ _ 19
    (by simp only [Nat.zero_or, Nat.shiftLeft_eq, TYPE_S]; omega)]
  rw [lor_shiftLeft_eq_add _ _ 21
    (by simp only [Nat.zero_or, Nat.shiftLeft_eq, TYPE_S]; omega)]
  rw [lor_shiftLeft_eq_add _ _ 32
    (by simp only [Nat.zero_or, Nat.shiftLeft_eq, TYPE_S]; omega)]
  simp only [Nat.zero_or, Nat.shiftLeft_eq, TYPE_S]
  omega

/-- Arithmetic form of `pack_Q`. -/
theorem pack_Q_eq (instr pl id report : Nat) :
    pack_Q instr pl id report =
      4 + (instr % 2 ^ 4) * 2 ^ 5 + (pl % 2 ^ 2) * 2 ^ 9 + (id % 2 ^ 12) * 2 ^ 11
        + (report % 2) * 2 ^ 23 := by
  show (((((0 ||| ((TYPE_Q &&& 0x1F) <<< 0)) ||| ((instr &&& 0x0F) <<< 5))
      ||| ((pl &&& 0x03) <<< 9)) ||| ((id &&& 0x0FFF) <<< 11))
      ||| ((report &&& 1) <<< 23)) = _
  simp only [and_mask1, and_mask3, and_mask15, and_mask31, and_mask4095]
  rw [lor_shiftLeft_eq_add _ _ 5
    (by simp only [Nat.zero_or, Nat.shiftLeft_eq, TYPE_Q]; omega)]
  rw [lor_shiftLeft_eq_add _ _ 9
    (by simp only [Nat.zero_or, Nat.shiftLeft_eq, TYPE_Q]; omega)]
  rw [lor_shiftLeft_eq_add _ _ 11
    (by simp only [Nat.zero_or, Nat.shiftLeft_eq, TYPE_Q]; omega)]
  rw [lor_shiftLeft_eq_add _ _ 23
    (by simp only [Nat.zero_or, Nat.shiftLeft_eq, TYPE_Q]; omega)]
  simp only [Nat.zero_or, Nat.shiftLeft_eq, TYPE_Q]
  omega

/-- Arithmetic form of `spec_pack_SR`. -/
theorem spec_pack_SR_eq (speed state motor robot_id curr_pos : Nat) :
    spec_pack_SR speed state motor robot_id curr_pos =
      5 + (speed % 2 ^ 7) * 2 ^ 5 + (state % 2) * 2 ^ 12 + (motor % 2) * 2 ^ 13
        + (robot_id % 2 ^ 2) * 2 ^ 14 + (curr_pos % 2 ^ 31) * 2 ^ 16 := by
  show (((((((0 ||| ((TYPE_SR &&& 0x1F) <<< 0)) ||| ((speed &&& 0x7F) <<< 5))
      ||| ((state &&& 1) <<< 12)) ||| ((motor &&& 1) <<< 13))
      ||| ((robot_id &&& 0x03) <<< 14))
      ||| ((curr_pos &&& ((1 <<< 31) - 1)) <<< 16))) = _
  simp only [and_mask1, and_mask3, and_mask31, and_mask127, and_mask_eq_mod]
  rw [lor_shiftLeft_eq_add _ _ 5
    (by simp only [Nat.zero_or, Nat.shiftLeft_eq, TYPE_SR]; omega)]
  rw [lor_shiftLeft_eq_add _ _ 12
    (by simp only [Nat.zero_or, Nat.shiftLeft_eq, TYPE_SR]; omega)]
  rw [lor_shiftLeft_eq_add _ _ 13
    (by simp only [Nat.zero_or, Nat.shiftLeft_eq, TYPE_SR]; omega)]
  rw [lor_shiftLeft_eq_add _ _ 14
    (by simp only [Nat.zero_or, Nat.shiftLeft_eq, TYPE_SR]; omega)]
  rw [lor_shiftLeft_eq_add _ _ 16
    (by simp only [Nat.zero_or, Nat.shiftLeft_eq, TYPE_SR]; omega)]
  simp only [Nat.zero_or, Nat.shiftLeft_eq, TYPE_SR]
  omega

/-- Arithmetic form of `spec_pack_HR`. -/
theorem spec_pack_HR_eq (battery signal security name_id : Nat) :
    spec_pack_HR battery signal security name_id =
      6 + (battery % 2 ^ 7) * 2 ^ 5 + (signal % 2 ^ 6) * 2 ^ 12
        + (security % 2 ^ 2) * 2 ^ 18 + (name_id % 2 ^ 12) * 2 ^ 20 := by
  show (((((0 ||| ((TYPE_HR &&& 0x1F) <<< 0)) ||| ((battery &&& 0x7F) <<< 5))
      ||| ((signal &&& 0x3F) <<< 12)) ||| ((security &&& 0x03) <<< 18))
      ||| ((name_id &&& 0x0FFF) <<< 20)) = _
  simp only [and_mask3, and_mask31, and_mask63, and_mask127, and_mask4095]
  rw [lor_shiftLeft_eq_add _ _ 5
    (by simp only [Nat.zero_or, Nat.shiftLeft_eq, TYPE_HR]; omega)]
  rw [lor_shiftLeft_eq_add _ _ 12
    (by simp only [Nat.zero_or, Nat.shiftLeft_eq, TYPE_HR]; omega)]
  rw [lor_shiftLeft_eq_add _ _ 18
    (by simp only [Nat.zero_or, Nat.shiftLeft_eq, TYPE_HR]; omega)]
  rw [lor_shiftLeft_eq_add _ _ 20
    (by simp only [Nat.zero_or, Nat.shiftLeft_eq, TYPE_HR]; omega)]
  simp only [Nat.zero_or, Nat.shiftLeft_eq, TYPE_HR]
  omega

/-! ## Closed forms of the unpackers -/

theorem unpack_SR_eq (w : Nat) :
    unpack_SR w =
      if w % 2 ^ 5 = 5 then
        some ⟨w / 2 ^ 5 % 2 ^ 7, w / 2 ^ 12 % 2 ^ 1, w / 2 ^ 13 % 2 ^ 1,
          w / 2 ^ 14 % 2 ^ 2, w / 2 ^ 16 % 2 ^ 31⟩
      else none := by
  unfold unpack_SR
  simp only [get_bits_u32_eq, and_mask_eq_mod, Nat.shiftRight_eq_div_pow,
    pow_zero, Nat.div_one, TYPE_SR, ne_eq, ite_not]

theorem unpack_HR_eq (w : Nat) :
    unpack_HR w =
      if w % 2 ^ 5 = 6 then
        some ⟨w / 2 ^ 5 % 2 ^ 7, w / 2 ^ 12 % 2 ^ 6, w / 2 ^ 18 % 2 ^ 2,
          w / 2 ^ 20 % 2 ^ 12⟩
      else none := by
  unfold unpack_HR
  simp only [get_bits_u32_eq, pow_zero, Nat.div_one, TYPE_HR, ne_eq, ite_not]

theorem spec_unpack_C_eq (w : Nat) :
    spec_unpack_C w =
      if w % 2 ^ 5 = 1 then
        some ⟨w / 2 ^ 5 % 2 ^ 1, w / 2 ^ 6 % 2 ^ 1, w / 2 ^ 7 % 2 ^ 1,
          w / 2 ^ 8 % 2 ^ 1, w / 2 ^ 9 % 2 ^ 7, w / 2 ^ 16 % 2 ^ 2⟩
      else none := by
  unfold spec_unpack_C
  simp only [get_bits_u32_eq, pow_zero, Nat.div_one, TYPE_C, ne_eq, ite_not]

theorem spec_unpack_P_eq (w : Nat) :
    spec_unpack_P w =
      if w % 2 ^ 5 = 2 then
        some ⟨w / 2 ^ 5 % 2 ^ 4, w / 2 ^ 9 % 2 ^ 2, w / 2 ^ 11 % 2 ^ 12⟩
      else none := by
  unfold spec_unpack_P
  simp only [get_bits_u32_eq, pow_zero, Nat.div_one, TYPE_P, ne_eq, ite_not]

theorem spec_unpack_S_eq (w : Nat) :
    spec_unpack_S w =
      if w % 2 ^ 5 = 3 then
        some ⟨w / 2 ^ 5 % 2 ^ 4, w / 2 ^ 9 % 2 ^ 10, w / 2 ^ 19 % 2 ^ 2,
          w / 2 ^ 21 % 2 ^ 11, w / 2 ^ 32 % 2 ^ 32⟩
      else none := by
  unfold spec_unpack_S
  simp only [get_bits_u32_eq, and_mask_eq_mod, Nat.shiftRight_eq_div_pow,
    pow_zero, Nat.div_one, TYPE_S, ne_eq, ite_not]

theorem spec_unpack_Q_eq (w : Nat) :
    spec_unpack_Q w =
      if w % 2 ^ 5 = 4 then
        some ⟨w / 2 ^ 5 % 2 ^ 4, w / 2 ^ 9 % 2 ^ 2, w / 2 ^ 11 % 2 ^ 12,
          w / 2 ^ 23 % 2 ^ 1⟩
      else none := by
  unfold spec_unpack_Q
  simp only [get_bits_u32_eq, pow_zero, Nat.div_one, TYPE_Q, ne_eq, ite_not]

/-! ## Round-trip lemmas, one per message type -/

theorem roundtrip_C (f b l r sp pl : Nat) (hf : f ≤ 1) (hb : b ≤ 1) (hl : l ≤ 1)
    (hr : r ≤ 1) (hsp : sp < 2 ^ 7) (hpl : pl < 2 ^ 2) :
    spec_unpack_C (pack_C f b l r sp pl) = some ⟨f, b, l, r, sp, pl⟩ := by
  rw [pack_C_eq, spec_unpack_C_eq, if_pos (by omega)]
  simp only [Option.some.injEq, ControlFields.mk.injEq]
  omega

theorem roundtrip_P (instr pl id : Nat) (hi : instr < 2 ^ 4) (hpl : pl < 2 ^ 2)
    (hid : id < 2 ^ 12) :
    spec_unpack_P (pack_P instr pl id) = some ⟨instr, pl, id⟩ := by
  rw [pack_P_eq, spec_unpack_P_eq, if_pos (by omega)]
  simp only [Option.some.injEq, PoseFields.mk.injEq]
  omega

theorem roundtrip_S (instr ac pl id spec : Nat) (hi : instr < 2 ^ 4)
    (hac : ac < 2 ^ 10) (hpl : pl < 2 ^ 2) (hid : id < 2 ^ 11)
    (hspec : spec < 2 ^ 32) :
    spec_unpack_S (pack_S instr ac pl id spec) = some ⟨instr, ac, pl, id, spec⟩ := by
  rw [pack_S_eq, spec_unpack_S_eq, if_pos (by omega)]
  simp only [Option.some.injEq, SystemFields.mk.injEq]
  omega

theorem roundtrip_Q (instr pl id rep : Nat) (hi : instr < 2 ^ 4)
    (hpl : pl < 2 ^ 2) (hid : id < 2 ^ 12) (hrep : rep ≤ 1) :
    spec_unpack_Q (pack_Q instr pl id rep) = some ⟨instr, pl, id, rep⟩ := by
  rw [pack_Q_eq, spec_unpack_Q_eq, if_pos (by omega)]
  simp only [Option.some.injEq, QueryFields.mk.injEq]
  omega

theorem roundtrip_SR (sp st mot rid cpos : Nat) (hsp : sp < 2 ^ 7) (hst : st ≤ 1)
    (hmot : mot ≤ 1) (hrid : rid < 2 ^ 2) (hcpos : cpos < 2 ^ 31) :
    unpack_SR (spec_pack_SR sp st mot rid cpos) = some ⟨sp, st, mot, rid, cpos⟩ := by
  rw [spec_pack_SR_eq, unpack_SR_eq, if_pos (by omega)]
  simp only [Option.some.injEq, StatusSR.mk.injEq]
  omega

theorem roundtrip_HR (bat sig sec nid : Nat) (hbat : bat < 2 ^ 7)
    (hsig : sig < 2 ^ 6) (hsec : sec < 2 ^ 2) (hnid : nid < 2 ^ 12) :
    unpack_HR (spec_pack_HR bat sig sec nid) = some ⟨bat, sig, sec, nid⟩ := by
  rw [spec_pack_HR_eq, unpack_HR_eq, if_pos (by omega)]
  simp only [Option.some.injEq, HealthHR.mk.injEq]
  omega

theorem uart_feed_list_append (p : UartParser) (xs ys : List Nat) :
    uart_feed_list p (xs ++ ys) =
      ((uart_feed_list (uart_feed_list p xs).1 ys).1,
        (uart_feed_list p xs).2 ++ (uart_feed_list (uart_feed_list p xs).1 ys).2) := by
  induction xs generalizing p with
  | nil => simp [uart_feed_list]
  | cons b rest ih =>
    simp only [List.cons_append, uart_feed_list]
    rw [show rest.append ys = rest ++ ys from rfl, ih]
    simp [List.append_assoc]

/-! ## XOR checksum algebra -/

theorem foldl_xor_eq (a : Nat) (l : List Nat) :
    l.foldl (fun x b => x ^^^ b) a = a ^^^ l.foldl (fun x b => x ^^^ b) 0 := by
  induction l generalizing a with
  | nil => simp
  | cons b t ih =>
    simp only [List.foldl_cons]
    rw [ih (a ^^^ b), ih (0 ^^^ b), Nat.zero_xor, Nat.xor_assoc]

theorem xor8_append (xs ys : List Nat) :
    xor8 (xs ++ ys) = xor8 xs ^^^ xor8 ys := by
  unfold xor8
  rw [List.foldl_append, foldl_xor_eq]

theorem xor8_cons (b : Nat) (l : List Nat) : xor8 (b :: l) = b ^^^ xor8 l := by
  unfold xor8
  simp only [List.foldl_cons]
  rw [foldl_xor_eq, Nat.zero_xor]

/-- Changing one byte of the payload changes the XOR checksum. -/
theorem xor8_set_ne (l1 l2 : List Nat) (a v : Nat) (h : v ≠ a) :
    xor8 (l1 ++ v :: l2) ≠ xor8 (l1 ++ a :: l2) := by
  rw [xor8_append, xor8_append, xor8_cons, xor8_cons]
  intro heq
  apply h
  have h1 : v ^^^ xor8 l2 = a ^^^ xor8 l2 := by
    have h2 := congrArg (fun z => xor8 l1 ^^^ z) heq
    simpa [Nat.xor_cancel_left] using h2
  have h3 := congrArg (fun z => z ^^^ xor8 l2) h1
  simpa [Nat.xor_assoc, Nat.xor_self] using h3

/-! ## Complete-frame behaviour of the parser -/

/-- Feeding `AA 55 08`, 8 payload bytes and a trailing byte `c` from the
initial state: the parser returns to `ST_SYNC0` and emits the big-endian
word exactly when `c` is the XOR checksum of the payload. -/
theorem feed_frame_core (b0 b1 b2 b3 b4 b5 b6 b7 c : Nat) :
    uart_feed_list uart_parser_init
        [0xAA, 0x55, 8, b0, b1, b2, b3, b4, b5, b6, b7, c]
      = ({ st := ST_SYNC0, len := 8, payload := [b0, b1, b2, b3, b4, b5, b6, b7],
            idx := 8 },
         if c = xor8 [b0, b1, b2, b3, b4, b5, b6, b7] then
           [be_to_u64 [b0, b1, b2, b3, b4, b5, b6, b7]]
         else []) := by
  by_cases hc : c = xor8 [b0, b1, b2, b3, b4, b5, b6, b7]
  · simp [uart_feed_list, uart_parser_feed, uart_parser_init,
      UART_PREAMBLE_0, UART_PREAMBLE_1, hc]
  · simp [uart_feed_list, uart_parser_feed, uart_parser_init,
      UART_PREAMBLE_0, UART_PREAMBLE_1, hc]

/-- A single non-`0xAA` byte in `ST_SYNC0` is discarded without any other
state change. -/
theorem feed_skip_garbage (g : Nat) (hg : g ≠ 0xAA) (bytes : List Nat) :
    uart_feed_list uart_parser_init (g :: bytes) =
      uart_feed_list uart_parser_init bytes := by
  simp [uart_feed_list, uart_parser_feed, uart_parser_init, UART_PREAMBLE_0, hg]

/-! ## Supporting lemmas for the claims -/

theorem and_shift_ne_zero_iff (x n : Nat) :
    (x &&& (1 <<< n) ≠ 0) ↔ x.testBit n := by
  rw [Nat.shiftLeft_eq, Nat.one_mul, Nat.and_two_pow]
  cases h : x.testBit n <;> simp [h]

/-- Invariant of the event loop: the ghost run counter equals 1 exactly when
the `bt_connect_attempted` flag is set. -/
theorem bridge_foldl_inv (events : List LoopEvent) (s : BridgeState)
    (h : s.rn42_connect_runs = if s.bt_connect_attempted then 1 else 0) :
    (events.foldl bridge_step s).rn42_connect_runs =
      if (events.foldl bridge_step s).bt_connect_attempted then 1 else 0 := by
  induction events generalizing s with
  | nil => exact h
  | cons e rest ih =>
    simp only [List.foldl_cons]
    apply ih
    cases e <;> simp only [bridge_step] <;> split_ifs <;> simp_all

/-! ## Claims -/

/-- C1 counterexample: on the Control command with `backward = 1` and every
other field 0, the transmitted word is 129 = bit 0 (type) + bit 7: bit 6 is
clear, so the backward value is not at bit 6 as the claim states
(`handle_node_json` passes `left` as `pack_C`'s second argument and
`backward` as its third, matching the WASD order the ESP32 firmware reads). -/
theorem claim_C1_counterexample :
    handle_node_json (some ctrl_backward_json) = [Event.uart 129]
      ∧ Nat.testBit 129 6 = false ∧ Nat.testBit 129 7 = true := by
  refine ⟨?_, by decide, by decide⟩
  simp [handle_node_json, ctrl_backward_json, json_get_u8,
    cJSON_GetObjectItemCaseSensitive, List.find?, pack_C, TYPE_C]

/-- C1 (amended): for every Control command accepted by the handler, the
transmitted word has the forward value at bit 5, the LEFT value at bit 6,
the BACKWARD value at bit 7, and the right value at bit 8 (plus speed at
bits 9–15 and priority at bits 16–17). -/
theorem claim_C1_handler_word (f b l r sp pl : Int)
    (hf : 0 ≤ f ∧ f ≤ 1) (hb : 0 ≤ b ∧ b ≤ 1) (hl : 0 ≤ l ∧ l ≤ 1)
    (hr : 0 ≤ r ∧ r ≤ 1) (hsp : 0 ≤ sp ∧ sp ≤ 100) (hpl : 0 ≤ pl ∧ pl ≤ 3) :
    handle_node_json (some (Json.obj [("type", .str "C"), ("forward", .num f),
        ("backward", .num b), ("left", .num l), ("right", .num r),
        ("speed", .num sp), ("priority_level", .num pl)]))
      = [Event.uart (1 + f.toNat * 2 ^ 5 + l.toNat * 2 ^ 6 + b.toNat * 2 ^ 7
          + r.toNat * 2 ^ 8 + sp.toNat * 2 ^ 9 + pl.toNat * 2 ^ 16)] := by
  have h1 : handle_node_json (some (Json.obj [("type", .str "C"),
      ("forward", .num f), ("backward", .num b), ("left", .num l),
      ("right", .num r), ("speed", .num sp), ("priority_level", .num pl)]))
      = [Event.uart (pack_C f.toNat l.toNat b.toNat r.toNat sp.toNat pl.toNat)] := by
    simp [handle_node_json, json_get_u8, cJSON_GetObjectItemCaseSensitive,
      List.find?, show ¬(f < 0 ∨ f > 1) by omega, show ¬(b < 0 ∨ b > 1) by omega,
      show ¬(l < 0 ∨ l > 1) by omega, show ¬(r < 0 ∨ r > 1) by omega,
      show ¬(sp < 0 ∨ sp > 100) by omega, show ¬(pl < 0 ∨ pl > 3) by omega]
  rw [h1, pack_C_eq]
  simp only [List.cons.injEq, Event.uart.injEq, and_true]
  omega

theorem claim_C1_handler_word_witness :
    handle_node_json (some (Json.obj [("type", .str "C"), ("forward", .num 0),
        ("backward", .num 1), ("left", .num 1), ("right", .num 0),
        ("speed", .num 50), ("priority_level", .num 2)]))
      = [Event.uart (1 + 0 * 2 ^ 5 + 1 * 2 ^ 6 + 1 * 2 ^ 7 + 0 * 2 ^ 8
          + 50 * 2 ^ 9 + 2 * 2 ^ 16)] := by
  have h := claim_C1_handler_word 0 1 1 0 50 2 (by omega) (by omega) (by omega)
    (by omega) (by omega) (by omega)
  rw [h]
  decide

/-- C7: the outbound serialization of a word is exactly 65 bytes — the 64
bits of the word, most-significant first, as ASCII `'0'`/`'1'`, then one
carriage return — and for word `0x1` it is 63 `'0'`s, one `'1'`, and the
carriage return. -/
theorem claim_C7_ascii_serialization (w : Nat) :
    (uart_send_word_bytes w).length = 65
      ∧ uart_send_word_bytes w =
          (List.range 64).map
            (fun i => if w.testBit (63 - i) then '1' else '0') ++ ['\r']
      ∧ uart_send_word_bytes 1 = List.replicate 63 '0' ++ ['1', '\r'] := by
  refine ⟨by simp [uart_send_word_bytes], ?_, by decide⟩
  unfold uart_send_word_bytes
  simp only [and_shift_ne_zero_iff]

/-- C8: `unpack_SR` (resp. `unpack_HR`) fails exactly when the low 5 bits of
the word differ from 5 (resp. 6); when they match, it always succeeds and
returns the fields at the declared offsets and widths. -/
theorem claim_C8_unpack_discriminant (w : Nat) :
    ((unpack_SR w = none ↔ w % 2 ^ 5 ≠ 5)
      ∧ (w % 2 ^ 5 = 5 →
          unpack_SR w = some ⟨w / 2 ^ 5 % 2 ^ 7, w / 2 ^ 12 % 2 ^ 1,
            w / 2 ^ 13 % 2 ^ 1, w / 2 ^ 14 % 2 ^ 2, w / 2 ^ 16 % 2 ^ 31⟩))
    ∧ ((unpack_HR w = none ↔ w % 2 ^ 5 ≠ 6)
      ∧ (w % 2 ^ 5 = 6 →
          unpack_HR w = some ⟨w / 2 ^ 5 % 2 ^ 7, w / 2 ^ 12 % 2 ^ 6,
            w / 2 ^ 18 % 2 ^ 2, w / 2 ^ 20 % 2 ^ 12⟩)) := by
  rw [unpack_SR_eq, unpack_HR_eq]
  constructor
  · constructor
    · split_ifs with h <;> simp [h] <;> omega
    · intro h
      rw [if_pos h]
  · constructor
    · split_ifs with h <;> simp [h] <;> omega
    · intro h
      rw [if_pos h]

theorem claim_C8_unpack_discriminant_witness :
    unpack_SR 5 = some ⟨0, 0, 0, 0, 0⟩ ∧ unpack_HR 6 = some ⟨0, 0, 0, 0⟩ := by
  constructor
  · rw [(claim_C8_unpack_discriminant 5).1.2 (by decide)]
    decide
  · rw [(claim_C8_unpack_discriminant 6).2.2 (by decide)]
    decide

/-- A full frame whose trailing byte is not the payload checksum emits
nothing and returns to sync search. -/
theorem feed_frame_bad (b0 b1 b2 b3 b4 b5 b6 b7 c : Nat)
    (hc : c ≠ xor8 [b0, b1, b2, b3, b4, b5, b6, b7]) :
    (uart_feed_list uart_parser_init
        [0xAA, 0x55, 8, b0, b1, b2, b3, b4, b5, b6, b7, c]).1.st
        = UartParseState.ST_SYNC0
      ∧ (uart_feed_list uart_parser_init
        [0xAA, 0x55, 8, b0, b1, b2, b3, b4, b5, b6, b7, c]).2 = [] := by
  simp [feed_frame_core, hc]

/-- C3: a well-formed frame (`AA 55 08`, 8 payload bytes, XOR checksum)
from the initial state emits exactly the big-endian word of the payload and
returns the parser to sync search; the same frame with one payload byte
altered (checksum now mismatching) emits nothing and also returns to sync
search. -/
theorem claim_C3_frame_roundtrip (b0 b1 b2 b3 b4 b5 b6 b7 : Nat)
    (hb : ∀ x ∈ [b0, b1, b2, b3, b4, b5, b6, b7], x < 256)
    (i : Fin 8) (v : Nat) (hv : v ≠ [b0, b1, b2, b3, b4, b5, b6, b7].get i) :
    ((uart_feed_list uart_parser_init
        [0xAA, 0x55, 8, b0, b1, b2, b3, b4, b5, b6, b7,
          xor8 [b0, b1, b2, b3, b4, b5, b6, b7]]).1.st = UartParseState.ST_SYNC0
      ∧ (uart_feed_list uart_parser_init
        [0xAA, 0x55, 8, b0, b1, b2, b3, b4, b5, b6, b7,
          xor8 [b0, b1, b2, b3, b4, b5, b6, b7]]).2
        = [be_to_u64 [b0, b1, b2, b3, b4, b5, b6, b7]])
    ∧ ((uart_feed_list uart_parser_init
        ([0xAA, 0x55, 8] ++ [b0, b1, b2, b3, b4, b5, b6, b7].set i.val v
          ++ [xor8 [b0, b1, b2, b3, b4, b5, b6, b7]])).1.st
          = UartParseState.ST_SYNC0
      ∧ (uart_feed_list uart_parser_init
        ([0xAA, 0x55, 8] ++ [b0, b1, b2, b3, b4, b5, b6, b7].set i.val v
          ++ [xor8 [b0, b1, b2, b3, b4, b5, b6, b7]])).2 = []) := by
  constructor
  · constructor <;> simp [feed_frame_core]
  · fin_cases i
    · simp only [List.get] at hv
      simp only [Fin.val_mk, List.set, List.cons_append, List.nil_append]
      exact feed_frame_bad _ _ _ _ _ _ _ _ _
        (Ne.symm (by simpa using xor8_set_ne [] [b1, b2, b3, b4, b5, b6, b7] b0 v hv))
    · simp only [List.get] at hv
      simp only [Fin.val_mk, List.set, List.cons_append, List.nil_append]
      exact feed_frame_bad _ _ _ _ _ _ _ _ _
        (Ne.symm (by simpa using xor8_set_ne [b0] [b2, b3, b4, b5, b6, b7] b1 v hv))
    · simp only [List.get] at hv
      simp only [Fin.val_mk, List.set, List.cons_append, List.nil_append]
      exact feed_frame_bad _ _ _ _ _ _ _ _ _
        (Ne.symm (by simpa using xor8_set_ne [b0, b1] [b3, b4, b5, b6, b7] b2 v hv))
    · simp only [List.get] at hv
      simp only [Fin.val_mk, List.set, List.cons_append, List.nil_append]
      exact feed_frame_bad _ _ _ _ _ _ _ _ _
        (Ne.symm (by simpa using xor8_set_ne [b0, b1, b2] [b4, b5, b6, b7] b3 v hv))
    · simp only [List.get] at hv
      simp only [Fin.val_mk, List.set, List.cons_append, List.nil_append]
      exact feed_frame_bad _ _ _ _ _ _ _ _ _
        (Ne.symm (by simpa using xor8_set_ne [b0, b1, b2, b3] [b5, b6, b7] b4 v hv))
    · simp only [List.get] at hv
      simp only [Fin.val_mk, List.set, List.cons_append, List.nil_append]
      exact feed_frame_bad _ _ _ _ _ _ _ _ _
        (Ne.symm (by simpa using xor8_set_ne [b0, b1, b2, b3, b4] [b6, b7] b5 v hv))
    · simp only [List.get] at hv
      simp only [Fin.val_mk, List.set, List.cons_append, List.nil_append]
      exact feed_frame_bad _ _ _ _ _ _ _ _ _
        (Ne.symm (by simpa using xor8_set_ne [b0, b1, b2, b3, b4, b5] [b7] b6 v hv))
    · simp only [List.get] at hv
      simp only [Fin.val_mk, List.set, List.cons_append, List.nil_append]
      exact feed_frame_bad _ _ _ _ _ _ _ _ _
        (Ne.symm (by simpa using xor8_set_ne [b0, b1, b2, b3, b4, b5, b6] [] b7 v hv))

theorem claim_C3_frame_roundtrip_witness :
    (∀ x ∈ [1, 2, 3, 4, 5, 6, 7, 8], x < 256) ∧ (9 ≠ [1, 2, 3, 4, 5, 6, 7, 8].get (0 : Fin 8))
      ∧ ((uart_feed_list uart_parser_init
          [0xAA, 0x55, 8, 1, 2, 3, 4, 5, 6, 7, 8, xor8 [1, 2, 3, 4, 5, 6, 7, 8]]).2
        = [be_to_u64 [1, 2, 3, 4, 5, 6, 7, 8]]) := by
  refine ⟨by decide, by decide, ?_⟩
  exact (claim_C3_frame_roundtrip 1 2 3 4 5 6 7 8 (by decide) (0 : Fin 8) 9
    (by decide)).1.2

/-- C4 counterexample: a garbage byte equal to the first sync byte `0xAA`
makes the parser mis-sync and lose the following valid all-zero frame — no
word is emitted, contrary to the claim that every garbage byte is ignored. -/
theorem claim_C4_counterexample_garbage_AA :
    (uart_feed_list uart_parser_init
        [0xAA, 0xAA, 0x55, 8, 0, 0, 0, 0, 0, 0, 0, 0, 0]).2
      ≠ [be_to_u64 [0, 0, 0, 0, 0, 0, 0, 0]] := by
  decide

/-- C4 (amended): a single garbage byte other than `0xAA` before a valid
frame is ignored — the frame's word is still the only emission. -/
theorem claim_C4_garbage_then_frame (g b0 b1 b2 b3 b4 b5 b6 b7 : Nat)
    (hg : g < 256) (hgne : g ≠ 0xAA)
    (hb : ∀ x ∈ [b0, b1, b2, b3, b4, b5, b6, b7], x < 256) :
    (uart_feed_list uart_parser_init
        (g :: [0xAA, 0x55, 8, b0, b1, b2, b3, b4, b5, b6, b7,
          xor8 [b0, b1, b2, b3, b4, b5, b6, b7]])).2
      = [be_to_u64 [b0, b1, b2, b3, b4, b5, b6, b7]] := by
  rw [feed_skip_garbage g hgne]
  simp [feed_frame_core]

theorem claim_C4_garbage_then_frame_witness :
    (0 : Nat) < 256 ∧ (0 : Nat) ≠ 0xAA ∧
      (uart_feed_list uart_parser_init
        (0 :: [0xAA, 0x55, 8, 1, 2, 3, 4, 5, 6, 7, 8, xor8 [1, 2, 3, 4, 5, 6, 7, 8]])).2
      = [be_to_u64 [1, 2, 3, 4, 5, 6, 7, 8]] :=
  ⟨by decide, by decide,
    claim_C4_garbage_then_frame 0 1 2 3 4 5 6 7 8 (by decide) (by decide) (by decide)⟩

/-- C5: a Control command whose `speed` is outside 0–100 (such as 150) is
answered with exactly one `ERR` reply (`bad C fields`) and no UART
transmission, whatever the other field values are. -/
theorem claim_C5_speed_150_rejected (f b l r pl s : Int) (hs : s < 0 ∨ s > 100) :
    handle_node_json (some (Json.obj [("type", .str "C"), ("forward", .num f),
        ("backward", .num b), ("left", .num l), ("right", .num r),
        ("speed", .num s), ("priority_level", .num pl)]))
      = [Event.uds ERR_BAD_C] := by
  simp [handle_node_json, json_get_u8, cJSON_GetObjectItemCaseSensitive,
    List.find?, hs]

theorem claim_C5_speed_150_rejected_witness :
    handle_node_json (some (Json.obj [("type", .str "C"), ("forward", .num 0),
        ("backward", .num 0), ("left", .num 0), ("right", .num 0),
        ("speed", .num 150), ("priority_level", .num 0)]))
      = [Event.uds ERR_BAD_C] :=
  claim_C5_speed_150_rejected 0 0 0 0 0 150 (by omega)

/-- C6: a Pose command with `actions: [1, 99, 3]` transmits exactly the two
words for instructions 1 and 3, in that order, skipping 99; in general any
malformed list element (non-numeric, or numeric outside 0–15) is skipped
individually without disturbing the rest of the list. -/
theorem claim_C6_pose_actions_skip (pl id : Int)
    (hpl : 0 ≤ pl ∧ pl ≤ 3) (hid : 0 ≤ id ∧ id ≤ 2047) :
    (handle_node_json (some (Json.obj [("type", .str "P"),
        ("priority_level", .num pl), ("id", .num id),
        ("actions", .arr [.num 1, .num 99, .num 3])]))
      = [Event.uart (pack_P 1 pl.toNat id.toNat),
          Event.uart (pack_P 3 pl.toNat id.toNat)])
    ∧ ∀ (items1 items2 : List Json) (bad : Json),
        (∀ op : Int, bad = .num op → op < 0 ∨ op > 15) →
        handle_node_json (some (Json.obj [("type", .str "P"),
            ("priority_level", .num pl), ("id", .num id),
            ("actions", .arr (items1 ++ bad :: items2))]))
          = handle_node_json (some (Json.obj [("type", .str "P"),
              ("priority_level", .num pl), ("id", .num id),
              ("actions", .arr (items1 ++ items2))])) := by
  have hpl' : ¬(pl < 0 ∨ pl > 3) := by omega
  have hid' : ¬(id < 0 ∨ id > 2047) := by omega
  constructor
  · simp [handle_node_json, json_get_u8, json_get_u16,
      cJSON_GetObjectItemCaseSensitive, List.find?, hpl', hid']
  · intro items1 items2 bad hbad
    have hfm : ∀ items : List Json,
        handle_node_json (some (Json.obj [("type", .str "P"),
            ("priority_level", .num pl), ("id", .num id),
            ("actions", .arr items)]))
          = items.filterMap (fun ai =>
              match ai with
              | .num op =>
                if op < 0 ∨ op > 15 then none
                else some (Event.uart (pack_P op.toNat pl.toNat id.toNat))
              | _ => none) := by
      intro items
      simp [handle_node_json, json_get_u8, json_get_u16,
        cJSON_GetObjectItemCaseSensitive, List.find?, hpl', hid']
    rw [hfm, hfm, List.filterMap_append, List.filterMap_append,
      List.filterMap_cons]
    cases bad with
    | num op =>
      have h := hbad op rfl
      simp [h]
    | null => simp
    | bool b => simp
    | str s => simp
    | arr items => simp
    | obj fields => simp

theorem claim_C6_pose_actions_skip_witness :
    handle_node_json (some (Json.obj [("type", .str "P"),
        ("priority_level", .num 2), ("id", .num 100),
        ("actions", .arr [.num 1, .num 99, .num 3])]))
      = [Event.uart (pack_P 1 2 100), Event.uart (pack_P 3 2 100)] := by
  have h := (claim_C6_pose_actions_skip 2 100 (by decide) (by decide)).1
  rw [h]
  decide

/-- C2: the round-trip law — for every message type, unpacking the word
packed from in-range field values returns those values.  The repository
implements packers for C/P/S/Q and unpackers for SR/HR; the opposite halves
are the spec-modelled `spec_unpack_.`/`spec_pack_.` definitions. -/
theorem claim_C2_roundtrip
    (f b l r sp pl : Nat) (pi pp pid : Nat) (si sac spl sid sspec : Nat)
    (qi qp qid qr : Nat) (rsp rst rmot rrid rcp : Nat) (hbt hsg hsc hni : Nat)
    (hf : f ≤ 1) (hb : b ≤ 1) (hl : l ≤ 1) (hr : r ≤ 1) (hsp : sp < 2 ^ 7)
    (hpl : pl < 2 ^ 2) (hpi : pi < 2 ^ 4) (hpp : pp < 2 ^ 2) (hpid : pid < 2 ^ 12)
    (hsi : si < 2 ^ 4) (hsac : sac < 2 ^ 10) (hspl : spl < 2 ^ 2)
    (hsid : sid < 2 ^ 11) (hsspec : sspec < 2 ^ 32) (hqi : qi < 2 ^ 4)
    (hqp : qp < 2 ^ 2) (hqid : qid < 2 ^ 12) (hqr : qr ≤ 1) (hrsp : rsp < 2 ^ 7)
    (hrst : rst ≤ 1) (hrmot : rmot ≤ 1) (hrrid : rrid < 2 ^ 2)
    (hrcp : rcp < 2 ^ 31) (hhbt : hbt < 2 ^ 7) (hhsg : hsg < 2 ^ 6)
    (hhsc : hsc < 2 ^ 2) (hhni : hni < 2 ^ 12) :
    spec_unpack_C (pack_C f b l r sp pl) = some ⟨f, b, l, r, sp, pl⟩
      ∧ spec_unpack_P (pack_P pi pp pid) = some ⟨pi, pp, pid⟩
      ∧ spec_unpack_S (pack_S si sac spl sid sspec) = some ⟨si, sac, spl, sid, sspec⟩
      ∧ spec_unpack_Q (pack_Q qi qp qid qr) = some ⟨qi, qp, qid, qr⟩
      ∧ unpack_SR (spec_pack_SR rsp rst rmot rrid rcp) = some ⟨rsp, rst, rmot, rrid, rcp⟩
      ∧ unpack_HR (spec_pack_HR hbt hsg hsc hni) = some ⟨hbt, hsg, hsc, hni⟩ :=
  ⟨roundtrip_C f b l r sp pl hf hb hl hr hsp hpl,
    roundtrip_P pi pp pid hpi hpp hpid,
    roundtrip_S si sac spl sid sspec hsi hsac hspl hsid hsspec,
    roundtrip_Q qi qp qid qr hqi hqp hqid hqr,
    roundtrip_SR rsp rst rmot rrid rcp hrsp hrst hrmot hrrid hrcp,
    roundtrip_HR hbt hsg hsc hni hhbt hhsg hhsc hhni⟩

theorem claim_C2_roundtrip_witness :
    spec_unpack_C (pack_C 1 0 1 0 100 2) = some ⟨1, 0, 1, 0, 100, 2⟩
      ∧ spec_unpack_P (pack_P 7 3 4095) = some ⟨7, 3, 4095⟩
      ∧ spec_unpack_S (pack_S 9 1000 1 2000 4000000000)
          = some ⟨9, 1000, 1, 2000, 4000000000⟩
      ∧ spec_unpack_Q (pack_Q 15 0 123 1) = some ⟨15, 0, 123, 1⟩
      ∧ unpack_SR (spec_pack_SR 127 1 0 3 2147483647)
          = some ⟨127, 1, 0, 3, 2147483647⟩
      ∧ unpack_HR (spec_pack_HR 100 63 2 4095) = some ⟨100, 63, 2, 4095⟩ :=
  claim_C2_roundtrip 1 0 1 0 100 2 7 3 4095 9 1000 1 2000 4000000000 15 0 123 1
    127 1 0 3 2147483647 100 63 2 4095
    (by decide) (by decide) (by decide) (by decide) (by decide) (by decide)
    (by decide) (by decide) (by decide) (by decide) (by decide) (by decide)
    (by decide) (by norm_num) (by decide) (by decide) (by decide) (by decide)
    (by decide) (by decide) (by decide) (by decide) (by norm_num) (by decide)
    (by decide) (by decide) (by decide)

/-- C9: over any sequence of loop events from startup, the RN-42 connect
sequence executes at most once — the `bt_connect_attempted` guard makes a
second execution unreachable. -/
theorem claim_C9_connect_at_most_once (events : List LoopEvent) :
    (bridge_run events).rn42_connect_runs ≤ 1 := by
  have h := bridge_foldl_inv events bridge_init (by simp [bridge_init])
  unfold bridge_run
  rw [h]
  split_ifs <;> omega

/-- C10: `rn42_connect_mac` writes the same bytes whatever MAC address it is
given — the escape sequence, the fixed `C\r` command, and the exit
command — so the wire output does not depend on the `mac` input. -/
theorem claim_C10_mac_noninterference (mac1 mac2 : String) :
    rn42_connect_mac_bytes mac1 = rn42_connect_mac_bytes mac2
      ∧ rn42_connect_mac_bytes mac1 =
          "$$$".data ++ "C\r".data ++ "---\r".data :=
  ⟨rfl, rfl⟩

end GSBridge

